import Mathlib

/-!
Verification of the Top10-Server backend (src/server.js): a shallow
embedding of the request handlers, the page-route table, the input
sanitizer and the persistence/dispatch outcomes, with theorems settling
the specification claims.
-/

namespace Top10

/-- JS truthiness of a possibly-absent string field: `!x` is true exactly
when the field is absent (`undefined`) or the empty string. -/
def present : Option String → Bool
  | none => false
  | some s => !(s == "")

/-- Characters counted as whitespace by the JS regex class `\s`
(the ones relevant here); `\S` is the complement. -/
def jsSpace (c : Char) : Bool :=
  c == ' ' || c == '\t' || c == '\n' || c == '\r' || c == '\x0b' || c == '\x0c'

/-- A match of the unanchored regex `\S+@\S+\.\S+` located by the index `a`
of its literal `@` and the index `d` of its literal `.`: a non-space
character immediately before the `@`, a nonempty all-non-space run strictly
between the `@` and the `.`, and a non-space character immediately after
the `.`. -/
def atDotMatch (cs : List Char) (a d : Nat) : Bool :=
  decide (1 ≤ a) && decide (a + 2 ≤ d) && decide (d + 2 ≤ cs.length) &&
  (cs.getD a ' ' == '@') && (cs.getD d ' ' == '.') &&
  !jsSpace (cs.getD (a - 1) ' ') && !jsSpace (cs.getD (d + 1) ' ') &&
  ((List.range cs.length).all fun i =>
    !(decide (a + 1 ≤ i) && decide (i + 1 ≤ d)) || !jsSpace (cs.getD i ' '))

/-- `/\S+@\S+\.\S+/.test(email)` from src/server.js lines 113, 162, 209:
the string contains, somewhere, a non-space run, an `@`, a non-space run,
a `.`, and a non-space run. -/
def emailShape (s : String) : Bool :=
  (List.range s.data.length).any fun a =>
    (List.range s.data.length).any fun d => atDotMatch s.data a d

/-- Modelled from the spec: the body of `sanitizeInput` (src/server.js
lines 76-81) delegates to the external sanitize-html library with an empty
tag allow-list and empty attribute allow-list, whose implementation is not
in this repository. Per spec section 4.1 it "removes all markup tags and
attributes from the input, returning plain text": every region from a `<`
to the next `>` is removed and all other characters are kept. The flag
records whether the scan is currently inside a tag. -/
def stripTags : Bool → List Char → List Char
  | _, [] => []
  | true, c :: cs => if c = '>' then stripTags false cs else stripTags true cs
  | false, c :: cs => if c = '<' then stripTags true cs else c :: stripTags false cs

/-- `sanitizeInput` from src/server.js lines 76-81 (the library call is
modelled from the spec, see `stripTags`). -/
def sanitizeInput (s : String) : String :=
  ⟨stripTags false s.data⟩

/-- The body of a JSON response: `{message}`, `{error}` or `{component}`. -/
inductive RBody where
  | message (s : String)
  | error (s : String)
  | component (s : String)
  | jsValue (s : String)
deriving DecidableEq

/-- An HTTP response: status code and JSON body. -/
structure Resp where
  status : Nat
  body : RBody
deriving DecidableEq

/-- The observable outcome of one handler invocation. `validation` is the
400 response of a failed validation (the handler returns early).
Otherwise `rows` is the table after the `db.run` insert, `dbErrResp` is
the 500 response the insert callback emits when the insert errors (the
callback runs asynchronously: it does not stop the handler), `mailSent`
records that `transporter.sendMail` was invoked, and `dispatchResp` is
the response the handler emits after the sendMail attempt. -/
structure Outcome (Row : Type) where
  validation : Option Resp := none
  rows : List Row
  dbErrResp : Option Resp := none
  mailSent : Bool := false
  dispatchResp : Option Resp := none

/-- First of two optional responses. -/
def firstSome : Option Resp → Option Resp → Option Resp
  | some r, _ => some r
  | none, b => b

/-- The response the client receives: the first response actually sent.
A validation failure responds immediately. Otherwise the insert callback
and the post-sendMail response race: `cbEarly` is the schedule in which
the callback fires before the handler responds (an insert error 500 then
reaches the client first); with `cbEarly = false` the handler responds
first and the callback's late attempt is lost. -/
def clientResp {Row : Type} (o : Outcome Row) (cbEarly : Bool) : Option Resp :=
  match o.validation with
  | some r => some r
  | none =>
    if cbEarly then firstSome o.dbErrResp o.dispatchResp
    else firstSome o.dispatchResp o.dbErrResp

/-- Status code of a possibly-absent response (0 when none was sent). -/
def statusOf : Option Resp → Nat
  | some r => r.status
  | none => 0

/-- Body of POST /api/contact. -/
structure ContactReq where
  name : Option String
  email : Option String
  message : Option String

/-- A row of the `contacts` table (id and timestamp omitted: they are
system-assigned and no claim mentions them). -/
structure ContactRow where
  name : String
  email : String
  message : String
deriving DecidableEq

/-- The POST /api/contact handler, src/server.js lines 104-150.
`insertOk` is the store outcome of the `INSERT INTO contacts`, `mailOk`
the SMTP outcome, `mailErr` the underlying dispatch error message. The
handler fires the insert without awaiting it and always proceeds to
sendMail; its own response is decided by the sendMail outcome alone. -/
def contactHandler (req : ContactReq) (store : List ContactRow)
    (insertOk mailOk : Bool) (mailErr : String) : Outcome ContactRow :=
  if !present req.name || !present req.email || !present req.message then
    { validation := some ⟨400, .error "All fields are required"⟩, rows := store }
  else if !emailShape (req.email.getD "") then
    { validation := some ⟨400, .error "Invalid email"⟩, rows := store }
  else
    let sName := sanitizeInput (req.name.getD "")
    let sEmail := sanitizeInput (req.email.getD "")
    let sMessage := sanitizeInput (req.message.getD "")
    { rows := if insertOk then store ++ [⟨sName, sEmail, sMessage⟩] else store,
      dbErrResp := if insertOk then none else some ⟨500, .error "Failed to save contact"⟩,
      mailSent := true,
      dispatchResp := some (if mailOk then ⟨200, .message "Contact form submitted successfully"⟩
        else ⟨500, .error ("Failed to send email: " ++ mailErr)⟩) }

/-- The POST /api/subscribe handler, src/server.js lines 153-197. The
`subscriptions` table is the list of stored emails; `INSERT OR IGNORE`
leaves the table unchanged and reports no error when the email is already
present. -/
def subscribeHandler (email : Option String) (store : List String)
    (insertOk mailOk : Bool) (mailErr : String) : Outcome String :=
  if !present email then
    { validation := some ⟨400, .error "Email is required"⟩, rows := store }
  else if !emailShape (email.getD "") then
    { validation := some ⟨400, .error "Invalid email"⟩, rows := store }
  else
    let sEmail := sanitizeInput (email.getD "")
    { rows := if sEmail ∈ store then store
              else if insertOk then store ++ [sEmail] else store,
      dbErrResp := if sEmail ∉ store ∧ insertOk = false then
          some ⟨500, .error "Failed to save subscription"⟩ else none,
      mailSent := true,
      dispatchResp := some (if mailOk then ⟨200, .message "Subscription successful"⟩
        else ⟨500, .error ("Failed to send email: " ++ mailErr)⟩) }

/-- Body of POST /api/inquiry. -/
structure InquiryReq where
  name : Option String
  email : Option String
  product : Option String
  message : Option String

/-- A row of the `inquiries` table. -/
structure InquiryRow where
  name : String
  email : String
  product : String
  message : String
deriving DecidableEq

/-- The POST /api/inquiry handler, src/server.js lines 200-247. -/
def inquiryHandler (req : InquiryReq) (store : List InquiryRow)
    (insertOk mailOk : Bool) (mailErr : String) : Outcome InquiryRow :=
  if !present req.name || !present req.email || !present req.product || !present req.message then
    { validation := some ⟨400, .error "All fields are required"⟩, rows := store }
  else if !emailShape (req.email.getD "") then
    { validation := some ⟨400, .error "Invalid email"⟩, rows := store }
  else
    let sName := sanitizeInput (req.name.getD "")
    let sEmail := sanitizeInput (req.email.getD "")
    let sProduct := sanitizeInput (req.product.getD "")
    let sMessage := sanitizeInput (req.message.getD "")
    { rows := if insertOk then store ++ [⟨sName, sEmail, sProduct, sMessage⟩] else store,
      dbErrResp := if insertOk then none else some ⟨500, .error "Failed to save inquiry"⟩,
      mailSent := true,
      dispatchResp := some (if mailOk then ⟨200, .message "Inquiry submitted successfully"⟩
        else ⟨500, .error ("Failed to send email: " ++ mailErr)⟩) }

/-- The own keys of the `routes` object literal of GET /api/page,
src/server.js lines 87-92, with their component descriptors. -/
def routes (p : String) : Option String :=
  if p = "/" then some "Homepage"
  else if p = "/products" then some "Products"
  else if p = "/contact" then some "ContactUs"
  else if p = "/aboutUs" then some "AboutUs"
  else none

/-- The property names a plain JS object literal inherits from
`Object.prototype`: its standard members (all functions) and the
`__proto__` accessor. Accessed on the routes literal, each yields a
truthy value that is not a component descriptor. -/
def objectProtoKeys : List String :=
  ["constructor", "hasOwnProperty", "isPrototypeOf", "propertyIsEnumerable",
   "toLocaleString", "toString", "valueOf", "__defineGetter__",
   "__defineSetter__", "__lookupGetter__", "__lookupSetter__", "__proto__"]

/-- Result of the JS property access `routes[path]`: an own key yields
its descriptor, a key inherited from `Object.prototype` yields a truthy
non-descriptor value, any other key yields `undefined` (falsy). -/
inductive JsLookup where
  | own (component : String)
  | inherited (name : String)
  | absent
deriving DecidableEq

/-- The JS property access `routes[path]` in src/server.js line 94: the
lookup is not limited to the literal's own keys, it traverses the
prototype chain. -/
def routesGet (p : String) : JsLookup :=
  match routes p with
  | some c => .own c
  | none => if p ∈ objectProtoKeys then .inherited p else .absent

/-- The GET /api/page handler, src/server.js lines 84-101: the `path`
query parameter may be absent (then `routes[undefined]` is `undefined`);
a truthy lookup takes the 200 branch — for an own key the component
descriptor is the body, for an inherited `Object.prototype` member the
(non-descriptor) value found on the chain is serialized — and a falsy
lookup answers 404. -/
def pageHandler (path : Option String) : Resp :=
  match path with
  | none => ⟨404, .error "Page not found"⟩
  | some p =>
    match routesGet p with
    | .own c => ⟨200, .component c⟩
    | .inherited n => ⟨200, .jsValue n⟩
    | .absent => ⟨404, .error "Page not found"⟩

/-- A located regex match pins an `@` at index `a` and a `.` at index `d`. -/
theorem atDotMatch_chars (cs : List Char) (a d : Nat) (h : atDotMatch cs a d = true) :
    cs.getD a ' ' = '@' ∧ cs.getD d ' ' = '.' := by
  simp only [atDotMatch, Bool.and_eq_true, beq_iff_eq, decide_eq_true_eq] at h
  exact ⟨h.1.1.1.1.2, h.1.1.1.2⟩

/-- If the email shape test passes, the string contains an `@` and a `.`. -/
theorem mem_of_emailShape (s : String) (h : emailShape s = true) :
    '@' ∈ s.data ∧ '.' ∈ s.data := by
  simp only [emailShape, List.any_eq_true, List.mem_range] at h
  obtain ⟨a, ha, d, hd, hm⟩ := h
  obtain ⟨h4, h5⟩ := atDotMatch_chars s.data a d hm
  constructor
  · rw [List.getD_eq_getElem s.data ' ' ha] at h4
    exact h4 ▸ List.getElem_mem ha
  · rw [List.getD_eq_getElem s.data ' ' hd] at h5
    exact h5 ▸ List.getElem_mem hd

/-- A string lacking an `@` or lacking a `.` fails the email shape test. -/
theorem emailShape_eq_false (s : String)
    (h : '@' ∉ s.data ∨ '.' ∉ s.data) : emailShape s = false := by
  cases he : emailShape s with
  | false => rfl
  | true =>
    obtain ⟨hat, hdot⟩ := mem_of_emailShape s he
    rcases h with h | h
    · exact absurd hat h
    · exact absurd hdot h

/-- Stripping tags never lengthens the text. -/
theorem stripTags_length (b : Bool) (cs : List Char) :
    (stripTags b cs).length ≤ cs.length := by
  induction cs generalizing b with
  | nil => cases b <;> simp [stripTags]
  | cons c cs ih =>
    cases b with
    | true =>
      simp only [stripTags]
      split
      · exact Nat.le_trans (ih false) (Nat.le_succ _)
      · exact Nat.le_trans (ih true) (Nat.le_succ _)
    | false =>
      simp only [stripTags]
      split
      · exact Nat.le_trans (ih true) (Nat.le_succ _)
      · simp only [List.length_cons]
        exact Nat.succ_le_succ (ih false)

/-- C1: a contact submission with non-empty name, email and message and a
syntactically valid email, handled with a succeeding insert and a
succeeding dispatch, is answered 200 with "Contact form submitted
successfully", and a contacts row holding the three sanitized fields is in
the store afterwards. -/
theorem contact_valid_submission_ok (req : ContactReq) (store : List ContactRow)
    (me : String) (cbE : Bool)
    (hn : present req.name = true) (he : present req.email = true)
    (hm : present req.message = true)
    (hs : emailShape (req.email.getD "") = true) :
    clientResp (contactHandler req store true true me) cbE =
      some ⟨200, .message "Contact form submitted successfully"⟩ ∧
    (⟨sanitizeInput (req.name.getD ""), sanitizeInput (req.email.getD ""),
      sanitizeInput (req.message.getD "")⟩ : ContactRow) ∈
      (contactHandler req store true true me).rows := by
  simp [contactHandler, hn, he, hm, hs, clientResp, firstSome]

/-- C1 witness: the concrete valid submission (Alice, a@b.c, Hello). -/
theorem contact_valid_submission_ok_witness :
    clientResp (contactHandler ⟨some "Alice", some "a@b.c", some "Hello"⟩ [] true true "") false =
      some ⟨200, .message "Contact form submitted successfully"⟩ ∧
    (⟨"Alice", "a@b.c", "Hello"⟩ : ContactRow) ∈
      (contactHandler ⟨some "Alice", some "a@b.c", some "Hello"⟩ [] true true "").rows :=
  contact_valid_submission_ok ⟨some "Alice", some "a@b.c", some "Hello"⟩ [] "" false
    (by decide) (by decide) (by decide) (by decide)

/-- C2: submitting the same subscription email twice (inserts and
dispatches succeeding) answers 200 "Subscription successful" both times,
and the subscriptions table afterwards holds exactly one row with that
(sanitized) email: the duplicate insert is ignored, with no error and no
second row. -/
theorem subscribe_idempotent (e : String) (store : List String)
    (me1 me2 : String) (cbE1 cbE2 : Bool)
    (hp : present (some e) = true) (hs : emailShape e = true)
    (hnew : sanitizeInput e ∉ store) :
    clientResp (subscribeHandler (some e) store true true me1) cbE1 =
      some ⟨200, .message "Subscription successful"⟩ ∧
    clientResp (subscribeHandler (some e)
        ((subscribeHandler (some e) store true true me1).rows) true true me2) cbE2 =
      some ⟨200, .message "Subscription successful"⟩ ∧
    (subscribeHandler (some e)
        ((subscribeHandler (some e) store true true me1).rows) true true me2).rows =
      store ++ [sanitizeInput e] ∧
    ((subscribeHandler (some e)
        ((subscribeHandler (some e) store true true me1).rows) true true me2).rows.count
      (sanitizeInput e)) = 1 := by
  have h1 : (subscribeHandler (some e) store true true me1).rows = store ++ [sanitizeInput e] := by
    simp [subscribeHandler, hp, hs, hnew]
  have hmem : sanitizeInput e ∈ store ++ [sanitizeInput e] := by simp
  refine ⟨?_, ?_, ?_, ?_⟩
  · simp [subscribeHandler, hp, hs, hnew, clientResp, firstSome]
  · simp [subscribeHandler, hp, hs, h1, hmem, clientResp, firstSome]
  · simp [subscribeHandler, hp, hs, hnew, hmem]
  · simp [subscribeHandler, hp, hs, hnew, hmem, List.count_append,
      List.count_eq_zero.mpr hnew]

/-- C2 witness: subscribing a@b.c twice starting from an empty table. -/
theorem subscribe_idempotent_witness :
    clientResp (subscribeHandler (some "a@b.c") [] true true "") false =
      some ⟨200, .message "Subscription successful"⟩ ∧
    clientResp (subscribeHandler (some "a@b.c")
        ((subscribeHandler (some "a@b.c") [] true true "").rows) true true "") false =
      some ⟨200, .message "Subscription successful"⟩ ∧
    (subscribeHandler (some "a@b.c")
        ((subscribeHandler (some "a@b.c") [] true true "").rows) true true "").rows =
      [] ++ ["a@b.c"] ∧
    ((subscribeHandler (some "a@b.c")
        ((subscribeHandler (some "a@b.c") [] true true "").rows) true true "").rows.count
      "a@b.c") = 1 := by
  have h := subscribe_idempotent "a@b.c" [] "" "" false false
    (by decide) (by decide) (by decide)
  exact h

/-- C3: on a valid contact submission whose insert fails while the
dispatch succeeds, under the schedule where the insert callback fires
after the handler has responded, the client receives 200 "Contact form
submitted successfully" and no row is stored: the store failure is not
surfaced as the claimed 500 "Failed to save contact", the email is still
sent, and the success response swallows the failure. -/
theorem contact_insert_failure_swallowed :
    clientResp (contactHandler ⟨some "Alice", some "a@b.c", some "Hello"⟩ [] false true "") false =
      some ⟨200, .message "Contact form submitted successfully"⟩ ∧
    (contactHandler ⟨some "Alice", some "a@b.c", some "Hello"⟩ [] false true "").rows = [] ∧
    (contactHandler ⟨some "Alice", some "a@b.c", some "Hello"⟩ [] false true "").mailSent = true := by
  decide

/-- C4: on a valid inquiry whose insert fails and whose dispatch fails
with underlying message "Invalid login", the handler does respond 500
"Failed to send email: Invalid login" (the underlying text is surfaced),
but the dispatch was attempted even though no inquiries row was
persisted: persistence is not a precondition of the dispatch attempt. -/
theorem inquiry_dispatch_unguarded_by_persistence :
    (inquiryHandler ⟨some "Alice", some "a@b.c", some "Widget", some "Hello"⟩ []
        false false "Invalid login").mailSent = true ∧
    (inquiryHandler ⟨some "Alice", some "a@b.c", some "Widget", some "Hello"⟩ []
        false false "Invalid login").rows = [] ∧
    clientResp (inquiryHandler ⟨some "Alice", some "a@b.c", some "Widget", some "Hello"⟩ []
        false false "Invalid login") false =
      some ⟨500, .error "Failed to send email: Invalid login"⟩ := by
  decide

/-- C5: sanitizing a name field holding markup removes the tags and
attributes and keeps the text content, so the value stored (and embedded
in the email body) for the script-markup name is exactly "alert(1)Alice". -/
theorem sanitize_script_markup :
    sanitizeInput "<script>alert(1)</script>Alice" = "alert(1)Alice" ∧
    (contactHandler ⟨some "<script>alert(1)</script>Alice", some "a@b.c", some "Hi"⟩ []
        true true "").rows =
      [⟨"alert(1)Alice", "a@b.c", "Hi"⟩] := by
  decide

/-- C8 counterexample: "toString" is not one of the four table keys, yet
the handler answers 200 and not 404 "Page not found": the JS lookup
`routes["toString"]` finds the truthy `Object.prototype.toString` on the
prototype chain, refuting the claimed every-non-table-path-404 behavior. -/
theorem page_lookup_proto_leak :
    ("toString" ≠ "/" ∧ "toString" ≠ "/products" ∧
      "toString" ≠ "/contact" ∧ "toString" ≠ "/aboutUs") ∧
    pageHandler (some "toString") = ⟨200, .jsValue "toString"⟩ ∧
    pageHandler (some "toString") ≠ ⟨404, .error "Page not found"⟩ := by
  decide

/-- C8 amended: /contact yields 200 with component ContactUs, /unknown
yields 404 "Page not found", every path that is neither a table key nor a
property name inherited from Object.prototype — including trailing-slash
variants — yields 404 "Page not found" with no pattern matching or
normalization, and a path naming an inherited Object.prototype member is
answered 200 with the truthy non-descriptor value found on the chain. -/
theorem page_lookup_own_keys :
    pageHandler (some "/contact") = ⟨200, .component "ContactUs"⟩ ∧
    pageHandler (some "/unknown") = ⟨404, .error "Page not found"⟩ ∧
    (∀ p : String, p ≠ "/" → p ≠ "/products" → p ≠ "/contact" → p ≠ "/aboutUs" →
      p ∉ objectProtoKeys →
      pageHandler (some p) = ⟨404, .error "Page not found"⟩) ∧
    (∀ p : String, p ∈ objectProtoKeys →
      pageHandler (some p) = ⟨200, .jsValue p⟩) := by
  refine ⟨by decide, by decide, ?_, ?_⟩
  · intro p h1 h2 h3 h4 hnotin
    simp [pageHandler, routesGet, routes, h1, h2, h3, h4, hnotin]
  · intro p hp
    have hown : routes p = none := by
      simp only [objectProtoKeys, List.mem_cons, List.not_mem_nil, or_false] at hp
      rcases hp with rfl | rfl | rfl | rfl | rfl | rfl | rfl | rfl | rfl | rfl | rfl | rfl <;>
        decide
    simp [pageHandler, routesGet, hown, hp]

/-- C8 amended witness: the trailing-slash variant of a known path is a
miss, and the inherited key "constructor" takes the 200 branch. -/
theorem page_lookup_own_keys_witness :
    pageHandler (some "/contact/") = ⟨404, .error "Page not found"⟩ ∧
    pageHandler (some "constructor") = ⟨200, .jsValue "constructor"⟩ :=
  ⟨page_lookup_own_keys.2.2.1 "/contact/"
      (by decide) (by decide) (by decide) (by decide) (by decide),
    page_lookup_own_keys.2.2.2 "constructor" (by decide)⟩

/-- C9: the sanitizer is a total function on strings: it returns a string
for every input, never longer than the input, and maps the empty string
to the empty string. -/
theorem sanitize_total_on_strings :
    sanitizeInput "" = "" ∧ ∀ s : String, (sanitizeInput s).length ≤ s.length := by
  refine ⟨rfl, ?_⟩
  intro s
  show (stripTags false s.data).length ≤ s.data.length
  exact stripTags_length false s.data

/-- C6: on each of the three write endpoints, a submission missing a
required field (absent or empty) is answered 400, the table is unchanged,
and no email is sent, whatever the store and dispatch outcomes and the
schedule. -/
theorem missing_field_rejected :
    (∀ (req : ContactReq) (store : List ContactRow) (iOk mOk cbE : Bool) (me : String),
      (present req.name = false ∨ present req.email = false ∨ present req.message = false) →
      statusOf (clientResp (contactHandler req store iOk mOk me) cbE) = 400 ∧
      (contactHandler req store iOk mOk me).rows = store ∧
      (contactHandler req store iOk mOk me).mailSent = false) ∧
    (∀ (email : Option String) (store : List String) (iOk mOk cbE : Bool) (me : String),
      present email = false →
      statusOf (clientResp (subscribeHandler email store iOk mOk me) cbE) = 400 ∧
      (subscribeHandler email store iOk mOk me).rows = store ∧
      (subscribeHandler email store iOk mOk me).mailSent = false) ∧
    (∀ (req : InquiryReq) (store : List InquiryRow) (iOk mOk cbE : Bool) (me : String),
      (present req.name = false ∨ present req.email = false ∨
        present req.product = false ∨ present req.message = false) →
      statusOf (clientResp (inquiryHandler req store iOk mOk me) cbE) = 400 ∧
      (inquiryHandler req store iOk mOk me).rows = store ∧
      (inquiryHandler req store iOk mOk me).mailSent = false) := by
  refine ⟨?_, ?_, ?_⟩
  · intro req store iOk mOk cbE me h
    rcases h with h | h | h <;>
      simp [contactHandler, h, clientResp, statusOf]
  · intro email store iOk mOk cbE me h
    simp [subscribeHandler, h, clientResp, statusOf]
  · intro req store iOk mOk cbE me h
    rcases h with h | h | h | h <;>
      simp [inquiryHandler, h, clientResp, statusOf]

/-- C6 witness: a contact submission with an empty name, a subscription
with no email, and an inquiry with an absent product are all answered 400
with nothing stored and no email sent. -/
theorem missing_field_rejected_witness :
    (statusOf (clientResp (contactHandler ⟨some "", some "a@b.c", some "Hi"⟩ [] true true "") false) = 400 ∧
      (contactHandler ⟨some "", some "a@b.c", some "Hi"⟩ [] true true "").rows = [] ∧
      (contactHandler ⟨some "", some "a@b.c", some "Hi"⟩ [] true true "").mailSent = false) ∧
    (statusOf (clientResp (subscribeHandler none [] true true "") false) = 400 ∧
      (subscribeHandler none [] true true "").rows = [] ∧
      (subscribeHandler none [] true true "").mailSent = false) ∧
    (statusOf (clientResp (inquiryHandler ⟨some "Al", some "a@b.c", none, some "Hi"⟩ [] true true "") false) = 400 ∧
      (inquiryHandler ⟨some "Al", some "a@b.c", none, some "Hi"⟩ [] true true "").rows = [] ∧
      (inquiryHandler ⟨some "Al", some "a@b.c", none, some "Hi"⟩ [] true true "").mailSent = false) :=
  ⟨missing_field_rejected.1 ⟨some "", some "a@b.c", some "Hi"⟩ [] true true false ""
      (Or.inl (by decide)),
    missing_field_rejected.2.1 none [] true true false "" (by decide),
    missing_field_rejected.2.2 ⟨some "Al", some "a@b.c", none, some "Hi"⟩ [] true true false ""
      (Or.inr (Or.inr (Or.inl (by decide))))⟩

/-- C7: on each of the three write endpoints, a submission whose email
lacks an at-sign or lacks a dot is answered 400, whatever the other
fields, the store and dispatch outcomes and the schedule. -/
theorem malformed_email_rejected :
    (∀ (req : ContactReq) (store : List ContactRow) (iOk mOk cbE : Bool) (me : String),
      ('@' ∉ (req.email.getD "").data ∨ '.' ∉ (req.email.getD "").data) →
      statusOf (clientResp (contactHandler req store iOk mOk me) cbE) = 400) ∧
    (∀ (email : Option String) (store : List String) (iOk mOk cbE : Bool) (me : String),
      ('@' ∉ (email.getD "").data ∨ '.' ∉ (email.getD "").data) →
      statusOf (clientResp (subscribeHandler email store iOk mOk me) cbE) = 400) ∧
    (∀ (req : InquiryReq) (store : List InquiryRow) (iOk mOk cbE : Bool) (me : String),
      ('@' ∉ (req.email.getD "").data ∨ '.' ∉ (req.email.getD "").data) →
      statusOf (clientResp (inquiryHandler req store iOk mOk me) cbE) = 400) := by
  refine ⟨?_, ?_, ?_⟩
  · intro req store iOk mOk cbE me h
    have hs : emailShape (req.email.getD "") = false := emailShape_eq_false _ h
    cases hc : (!present req.name || !present req.email || !present req.message) <;>
      simp [contactHandler, hc, hs, clientResp, statusOf]
  · intro email store iOk mOk cbE me h
    have hs : emailShape (email.getD "") = false := emailShape_eq_false _ h
    cases hc : (!present email) <;>
      simp [subscribeHandler, hc, hs, clientResp, statusOf]
  · intro req store iOk mOk cbE me h
    have hs : emailShape (req.email.getD "") = false := emailShape_eq_false _ h
    cases hc : (!present req.name || !present req.email ||
        !present req.product || !present req.message) <;>
      simp [inquiryHandler, hc, hs, clientResp, statusOf]

/-- C7 witness: emails without a dot (contact, subscribe) and without an
at-sign (inquiry) are answered 400 even with all other fields valid. -/
theorem malformed_email_rejected_witness :
    statusOf (clientResp (contactHandler ⟨some "Alice", some "a@bc", some "Hi"⟩ [] true true "") false) = 400 ∧
    statusOf (clientResp (subscribeHandler (some "a@bc") [] true true "") false) = 400 ∧
    statusOf (clientResp (inquiryHandler ⟨some "Alice", some "ab.c", some "W", some "Hi"⟩ [] true true "") false) = 400 :=
  ⟨malformed_email_rejected.1 ⟨some "Alice", some "a@bc", some "Hi"⟩ [] true true false ""
      (Or.inr (by decide)),
    malformed_email_rejected.2.1 (some "a@bc") [] true true false "" (Or.inr (by decide)),
    malformed_email_rejected.2.2 ⟨some "Alice", some "ab.c", some "W", some "Hi"⟩ [] true true false ""
      (Or.inl (by decide))⟩

/-- C10: on each write endpoint, once validation passes, the response the
handler itself emits after the dispatch attempt is the 200 success message
exactly when sendMail succeeds, independently of the insert outcome; in
particular a run with a failed insert, a successful dispatch and a late
insert callback delivers 200 to the client with no row stored. -/
theorem success_decided_by_dispatch :
    (∀ (req : ContactReq) (store : List ContactRow) (iOk : Bool) (me : String),
      present req.name = true → present req.email = true → present req.message = true →
      emailShape (req.email.getD "") = true →
      (∀ mOk : Bool, ((contactHandler req store iOk mOk me).dispatchResp =
          some ⟨200, .message "Contact form submitted successfully"⟩ ↔ mOk = true)) ∧
      (clientResp (contactHandler req store false true me) false =
          some ⟨200, .message "Contact form submitted successfully"⟩ ∧
        (contactHandler req store false true me).rows = store)) ∧
    (∀ (email : Option String) (store : List String) (iOk : Bool) (me : String),
      present email = true → emailShape (email.getD "") = true →
      (∀ mOk : Bool, ((subscribeHandler email store iOk mOk me).dispatchResp =
          some ⟨200, .message "Subscription successful"⟩ ↔ mOk = true)) ∧
      (clientResp (subscribeHandler email store false true me) false =
          some ⟨200, .message "Subscription successful"⟩ ∧
        (subscribeHandler email store false true me).rows = store)) ∧
    (∀ (req : InquiryReq) (store : List InquiryRow) (iOk : Bool) (me : String),
      present req.name = true → present req.email = true →
      present req.product = true → present req.message = true →
      emailShape (req.email.getD "") = true →
      (∀ mOk : Bool, ((inquiryHandler req store iOk mOk me).dispatchResp =
          some ⟨200, .message "Inquiry submitted successfully"⟩ ↔ mOk = true)) ∧
      (clientResp (inquiryHandler req store false true me) false =
          some ⟨200, .message "Inquiry submitted successfully"⟩ ∧
        (inquiryHandler req store false true me).rows = store)) := by
  refine ⟨?_, ?_, ?_⟩
  · intro req store iOk me h1 h2 h3 hs
    refine ⟨fun mOk => ?_, ?_⟩
    · cases mOk <;> simp [contactHandler, h1, h2, h3, hs]
    · simp [contactHandler, h1, h2, h3, hs, clientResp, firstSome]
  · intro email store iOk me h1 hs
    refine ⟨fun mOk => ?_, ?_⟩
    · cases mOk <;> simp [subscribeHandler, h1, hs]
    · constructor
      · simp [subscribeHandler, h1, hs, clientResp, firstSome]
      · by_cases hd : sanitizeInput (email.getD "") ∈ store <;>
          simp [subscribeHandler, h1, hs, hd]
  · intro req store iOk me h1 h2 h3 h4 hs
    refine ⟨fun mOk => ?_, ?_⟩
    · cases mOk <;> simp [inquiryHandler, h1, h2, h3, h4, hs]
    · simp [inquiryHandler, h1, h2, h3, h4, hs, clientResp, firstSome]

/-- C10 witness: for a concrete valid contact submission with a failed
insert and a late callback, a successful dispatch yields 200 while the
store is unchanged. -/
theorem success_decided_by_dispatch_witness :
    ((contactHandler ⟨some "Alice", some "a@b.c", some "Hi"⟩ [] false true "").dispatchResp =
        some ⟨200, .message "Contact form submitted successfully"⟩ ↔ true = true) ∧
    (clientResp (contactHandler ⟨some "Alice", some "a@b.c", some "Hi"⟩ [] false true "") false =
        some ⟨200, .message "Contact form submitted successfully"⟩ ∧
      (contactHandler ⟨some "Alice", some "a@b.c", some "Hi"⟩ [] false true "").rows = []) :=
  ⟨(success_decided_by_dispatch.1 ⟨some "Alice", some "a@b.c", some "Hi"⟩ [] false ""
      (by decide) (by decide) (by decide) (by decide)).1 true,
    (success_decided_by_dispatch.1 ⟨some "Alice", some "a@b.c", some "Hi"⟩ [] false ""
      (by decide) (by decide) (by decide) (by decide)).2⟩

end Top10
